import Mathlib

/-!
Verification of the provider-search service (`back_end.py`).

The service exposes one endpoint, `search_providers`, which parses query
parameters, builds two SQL strings (a count query and a results query) over a
SQLite table `providers`, executes them, and serializes the outcome to JSON.

The embedding below mirrors the source:

* `SqlVal` models a dynamically typed SQLite column value (NULL, number, text).
* `ProviderRow` models one row of the `providers` table; the `taxonomy` column
  is modelled as the list of category codes its stored JSON array holds.
* The SQL text builders (`haversine_formula`, `base_query`, `taxonomy_join`,
  `where_clauses`, `having_clauses`, `count_query`, `results_query`) reproduce
  the exact strings the Python f-strings assemble, character for character.
* `run_count_query` / `run_results_query` give the strings their SQLite
  semantics.  SQLite (checked against 3.40.1; the relevant grammar rules are
  version-independent) rejects three of the four generated texts at prepare
  time: with an empty taxonomy the results query places GROUP BY before WHERE
  (syntax error near WHERE), and with a non-empty taxonomy both queries carry a
  HAVING clause with neither GROUP BY nor an aggregate ("HAVING clause on a
  non-aggregate query").  Only the empty-taxonomy count query is valid SQL, and
  its row semantics (filter on latitude, group by NPI, evaluate the haversine
  expression, keep distance < radius, count) is modelled in full.
* `search_providers` composes parsing, connection acquisition, the two query
  executions and the three exception handlers of the Python handler; a `Trace`
  records connection acquisition/release and every executed (sql, bindings)
  pair, so that dataset-access and release properties are statable.

The trigonometric content of the haversine expression is abstracted by a
parameter `dist : ℚ → ℚ → ℚ → ℚ → ℚ`: the registered SQL functions radians,
cos, sin, acos are Python's math functions, which raise a TypeError on a NULL
or TEXT argument (surfaced by sqlite3 as "user-defined function raised
exception"); on numeric arguments they return a float whose value no claim
depends on.
-/

namespace BackEnd

/-- A dynamically typed SQLite value as stored in a column: NULL, a number, or
a text string. -/
inductive SqlVal where
  | null : SqlVal
  | num : ℚ → SqlVal
  | text : String → SqlVal
deriving DecidableEq

/-- One row of the `providers` table.  The `taxonomy` column stores a JSON
array of category-code strings; it is modelled as that list of codes. -/
structure ProviderRow where
  NPI : String
  Name : String
  Address : String
  City : String
  State : String
  PostalCode : String
  latitude : SqlVal
  longitude : SqlVal
  taxonomy : List String
deriving DecidableEq

/-- The parameters of one request after the parsing step of
`search_providers` (section 1 of the handler). -/
structure Params where
  user_lat : ℚ
  user_lon : ℚ
  radius : ℚ
  taxonomy : String
  offset : Int
deriving DecidableEq

/-- The fixed page size `RESULTS_PER_PAGE` from the source. -/
def RESULTS_PER_PAGE : Nat := 20

/-- The named-parameter bindings dictionary `query_params` the handler passes
to both `conn.execute` calls. -/
structure QueryParams where
  user_lat : ℚ
  user_lon : ℚ
  radius : ℚ
  taxonomy : String
  limit : Nat
  offset : Int
deriving DecidableEq, BEq

/-- Builds the `query_params` dictionary from the parsed parameters, exactly
as the handler does. -/
def query_params (p : Params) : QueryParams :=
  ⟨p.user_lat, p.user_lon, p.radius, p.taxonomy, RESULTS_PER_PAGE, p.offset⟩

/-- The SQL haversine expression string (`haversine_formula` in the source),
reproduced exactly. -/
def haversine_formula : String :=
  "\n    (3958.8 * acos(\n        cos(radians(:user_lat)) * cos(radians(p.latitude)) *\n" ++
  "        cos(radians(p.longitude) - radians(:user_lon)) +\n" ++
  "        sin(radians(:user_lat)) * sin(radians(p.latitude))\n    ))\n    "

/-- The join string `taxonomy_join` from the source. -/
def taxonomy_join : String := "LEFT JOIN json_each(p.taxonomy) AS t_join ON 1=1"

/-- The single unconditional WHERE clause from the source (coordinates must be
present); note it constrains only `p.latitude`, never `p.longitude`. -/
def coord_where_clause : String := "p.latitude IS NOT NULL AND p.latitude != \x27\x27"

/-- Mirror of `where_clauses` from the source: the coordinate guard, plus the taxonomy
match when the taxonomy filter is non-empty (Python truthiness of a string). -/
def where_clauses (taxonomy : String) : List String :=
  if taxonomy = "" then [coord_where_clause]
  else [coord_where_clause, "t_join.value = :taxonomy"]

/-- Mirror of `having_clauses` from the source. -/
def having_clauses : List String := ["distance < :radius"]

/-- Mirror of `base_query` from the source: the SELECT of all provider columns plus the
computed distance; with an empty taxonomy the handler appends
" GROUP BY p.NPI" to it. -/
def base_query (taxonomy : String) : String :=
  "\n    SELECT\n        p.NPI, p.Name, p.Address, p.City, p.State, p.PostalCode,\n" ++
  "        p.latitude, p.longitude, p.taxonomy,\n        " ++
  haversine_formula ++
  " AS distance\n    FROM\n        providers p\n    " ++
  (if taxonomy = "" then " GROUP BY p.NPI" else "")

/-- Mirror of `count_query` from the source: the total-count SQL text, an f-string over
the haversine expression, the optional join, the WHERE clauses, the optional
GROUP BY, and the HAVING clauses. -/
def count_query (taxonomy : String) : String :=
  "\n    SELECT COUNT(*)\n    FROM (\n        SELECT p.NPI, " ++
  haversine_formula ++
  " AS distance\n        FROM providers p\n        " ++
  (if taxonomy = "" then "" else taxonomy_join) ++
  "\n        WHERE " ++ String.intercalate " AND " (where_clauses taxonomy) ++
  "\n        " ++ (if taxonomy = "" then "GROUP BY p.NPI" else "") ++
  "\n        HAVING " ++ String.intercalate " AND " having_clauses ++
  "\n    )\n    "

/-- Mirror of `results_query` from the source: the paginated-results SQL text.  With an
empty taxonomy, `base_query` already ends in " GROUP BY p.NPI", so the
assembled text places GROUP BY before WHERE. -/
def results_query (taxonomy : String) : String :=
  "\n    " ++ base_query taxonomy ++ "\n    " ++
  (if taxonomy = "" then "" else taxonomy_join) ++
  "\n    WHERE " ++ String.intercalate " AND " (where_clauses taxonomy) ++
  "\n    HAVING " ++ String.intercalate " AND " having_clauses ++
  "\n    ORDER BY distance\n    LIMIT :limit\n    OFFSET :offset\n    "

/-- SQL truth value of the WHERE clause
`p.latitude IS NOT NULL AND p.latitude != \x27\x27` on one row's latitude
value.  NULL fails the IS NOT NULL conjunct; the text value of zero length
equals the empty-string literal; any number compares unequal to a text value
under SQLite's cross-type ordering, and any non-empty text is unequal to the
empty text. -/
def latitudePresent : SqlVal → Bool
  | SqlVal.null => false
  | SqlVal.num _ => true
  | SqlVal.text s => !(s == "")

/-- Evaluation of the haversine SQL expression on one row.  The SQL functions
radians, cos, sin, acos registered by `get_db_conn` are Python math functions,
which raise a TypeError on a NULL or TEXT argument; sqlite3 reports that as the
OperationalError "user-defined function raised exception" and aborts the
query.  On two numeric coordinates the expression's value is `dist` applied to
the query point and the row's point. -/
def haversineEval (dist : ℚ → ℚ → ℚ → ℚ → ℚ) (userLat userLon : ℚ) :
    SqlVal → SqlVal → Except String ℚ
  | SqlVal.num plat, SqlVal.num plon => Except.ok (dist userLat userLon plat plon)
  | _, _ => Except.error "user-defined function raised exception"

/-- GROUP BY p.NPI over a row list: one representative row per distinct NPI
value, in first-occurrence order.  (SQLite leaves the choice of the
representative row for bare columns unspecified; the claims below only ever
evaluate this on lists with pairwise distinct NPIs, where every group is a
singleton and the choice is immaterial.) -/
def groupByNPI (rows : List ProviderRow) : List ProviderRow :=
  rows.foldl (fun acc r => if acc.any (fun s => s.NPI == r.NPI) then acc else acc ++ [r]) []

/-- Execution of `count_query` against the dataset.

With a non-empty taxonomy the text is rejected by SQLite at prepare time —
its inner SELECT has a HAVING clause but neither a GROUP BY clause nor an
aggregate ("HAVING clause on a non-aggregate query") — before any row or any
binding is consulted.

With an empty taxonomy the text is valid: the inner SELECT filters rows on the
latitude guard, groups by NPI, evaluates the haversine expression (aborting
the whole query if it raises), keeps groups with distance strictly below the
bound radius, and the outer SELECT counts the surviving groups. -/
def run_count_query (dist : ℚ → ℚ → ℚ → ℚ → ℚ) (p : Params)
    (db : List ProviderRow) : Except String Nat :=
  if p.taxonomy = "" then do
    let located := db.filter (fun r => latitudePresent r.latitude)
    let groups := groupByNPI located
    let ds ← groups.mapM
      (fun r => haversineEval dist p.user_lat p.user_lon r.latitude r.longitude)
    Except.ok (ds.filter (fun d => decide (d < p.radius))).length
  else Except.error "HAVING clause on a non-aggregate query"

/-- One record of the `results` list of a success response: every provider
column plus the computed distance. -/
structure ResultRow where
  NPI : String
  Name : String
  Address : String
  City : String
  State : String
  PostalCode : String
  latitude : SqlVal
  longitude : SqlVal
  taxonomy : List String
  distance : ℚ
deriving DecidableEq

/-- Execution of `results_query` against the dataset.  SQLite rejects both
variants of the text at prepare time, before any row or binding is consulted:
with an empty taxonomy the text reads `... FROM providers p GROUP BY p.NPI
WHERE ...` and the grammar requires WHERE before GROUP BY (syntax error near
WHERE); with a non-empty taxonomy the text has a HAVING clause with neither
GROUP BY nor an aggregate.  Hence no row list is ever produced. -/
def run_results_query (p : Params) (_db : List ProviderRow) :
    Except String (List ResultRow) :=
  if p.taxonomy = "" then Except.error "near \x22WHERE\x22: syntax error"
  else Except.error "HAVING clause on a non-aggregate query"

/-- The raw query string of one HTTP request: each parameter is present with
some text value, or absent. -/
structure RawRequest where
  lat : Option String
  lon : Option String
  radius : Option String
  taxonomy : Option String
  offset : Option String
deriving DecidableEq

/-- Parameter parsing (section 1 of `search_providers`) is parametrized by
the host language's numeric parsers: `pFloat` models Python float() on a
string (None standing for a TypeError/ValueError) and `pInt` models int().
A missing `lat` or `lon` makes float(None) raise; a missing `radius` defaults
to 25, a missing `taxonomy` to the empty string, and a missing `offset` to 0,
without touching the parsers.  This definition is the parse of the radius
parameter: float() of the value when present, the default 25 when absent. -/
def parse_radius (pFloat : String → Option ℚ) (r : RawRequest) : Option ℚ :=
  match r.radius with
  | none => some 25
  | some s => pFloat s

/-- Parse of the offset parameter: int() of the value when present, the
default 0 when absent. -/
def parse_offset (pInt : String → Option Int) (r : RawRequest) : Option Int :=
  match r.offset with
  | none => some 0
  | some s => pInt s

/-- Joint outcome of the five parses of section 1 of the handler: the parsed
record when all succeed, failure (the 400 path) when any raises. -/
def parse_params (pFloat : String → Option ℚ) (pInt : String → Option Int)
    (r : RawRequest) : Option Params :=
  match r.lat.bind pFloat, r.lon.bind pFloat, parse_radius pFloat r,
        parse_offset pInt r with
  | some user_lat, some user_lon, some radius, some offset =>
      some ⟨user_lat, user_lon, radius, r.taxonomy.getD "", offset⟩
  | _, _, _, _ => none

/-- An HTTP response of the handler: the 200 JSON object, the 400 body, or the
500 body with its generic message and diagnostic details. -/
inductive HttpResponse where
  | ok : List ResultRow → Nat → Int → Nat → HttpResponse
  | clientError : String → HttpResponse
  | serverError : String → String → HttpResponse
deriving DecidableEq

/-- The 400 message of the handler's TypeError/ValueError arm. -/
def invalid_params_message : String :=
  "Invalid query parameters. \x27lat\x27, \x27lon\x27, and \x27radius\x27 must be numbers."

/-- The generic message of the handler's sqlite3.Error arm. -/
def db_error_message : String := "A database error occurred."

/-- Observable dataset interaction of one request: whether a connection was
acquired (`get_db_conn` called), whether it was released (conn.close in the
finally block), and every (sql text, bindings) pair passed to conn.execute. -/
structure Trace where
  connAcquired : Bool
  connReleased : Bool
  executed : List (String × QueryParams)
deriving DecidableEq

/-- The `/api/search` handler `search_providers`.  It parses the parameters
(returning 400 on failure with no dataset interaction), acquires a
connection, executes the count query (a sqlite3.Error there is caught and
answered with 500), then the results query (likewise), else answers 200 with
the results, the total, the echoed offset and the fixed limit; the finally
block releases the connection on every path that acquired one. -/
def search_providers (dist : ℚ → ℚ → ℚ → ℚ → ℚ)
    (pFloat : String → Option ℚ) (pInt : String → Option Int)
    (db : List ProviderRow) (r : RawRequest) : HttpResponse × Trace :=
  match parse_params pFloat pInt r with
  | none =>
      (HttpResponse.clientError invalid_params_message, ⟨false, false, []⟩)
  | some p =>
      let qp := query_params p
      match run_count_query dist p db with
      | Except.error e =>
          (HttpResponse.serverError db_error_message e,
           ⟨true, true, [(count_query p.taxonomy, qp)]⟩)
      | Except.ok total =>
          match run_results_query p db with
          | Except.error e =>
              (HttpResponse.serverError db_error_message e,
               ⟨true, true, [(count_query p.taxonomy, qp), (results_query p.taxonomy, qp)]⟩)
          | Except.ok results =>
              (HttpResponse.ok results total p.offset RESULTS_PER_PAGE,
               ⟨true, true, [(count_query p.taxonomy, qp), (results_query p.taxonomy, qp)]⟩)

/-! Concrete sample data used to evaluate the handler at specific inputs. -/

/-- A concrete stand-in for the trigonometric distance evaluation: constant
zero (every located provider is then at distance 0, inside any positive
radius). -/
def distZero : ℚ → ℚ → ℚ → ℚ → ℚ := fun _ _ _ _ => 0

/-- A concrete stand-in for the trigonometric distance evaluation with
distinct positive values: the L1 distance between the two points. -/
def distManhattan : ℚ → ℚ → ℚ → ℚ → ℚ :=
  fun ulat ulon plat plon => |ulat - plat| + |ulon - plon|

/-- A concrete float parser covering the strings the sample requests use. -/
def pFloatDemo : String → Option ℚ
  | "40" => some 40
  | "-75" => some (-75)
  | "25" => some 25
  | "40.0001" => some (400001 / 10000)
  | "-75.0001" => some (-750001 / 10000)
  | _ => none

/-- A concrete int parser covering the strings the sample requests use. -/
def pIntDemo : String → Option Int
  | "0" => some 0
  | "20" => some 20
  | _ => none

/-- A located provider that stores the category code 101Y00000X twice. -/
def rowAlpha : ProviderRow :=
  ⟨"1003000126", "Alpha Clinic", "1 Main St", "Philadelphia", "PA", "19100",
   SqlVal.num 40, SqlVal.num (-75), ["101Y00000X", "101Y00000X"]⟩

/-- A second located provider with a different category code. -/
def rowBeta : ProviderRow :=
  ⟨"1003000127", "Beta Clinic", "2 Main St", "Philadelphia", "PA", "19101",
   SqlVal.num (401 / 10), SqlVal.num (-75), ["207Q00000X"]⟩

/-- A provider with a numeric latitude but a NULL longitude: it passes the
latitude-only WHERE guard while being unlocated. -/
def rowNullLon : ProviderRow :=
  ⟨"1003000128", "Gamma Clinic", "3 Main St", "Philadelphia", "PA", "19102",
   SqlVal.num 40, SqlVal.null, []⟩

/-- A well-formed request with an explicitly empty taxonomy filter. -/
def reqEmptyTax : RawRequest := ⟨some "40", some "-75", some "25", some "", some "0"⟩

/-- A well-formed request filtering on the taxonomy code 101Y00000X. -/
def reqWithTax : RawRequest :=
  ⟨some "40", some "-75", some "25", some "101Y00000X", some "0"⟩

/-- The spec's worked example: query point (40.0001, -75.0001), radius 25,
taxonomy and offset absent (defaulted). -/
def reqSpecExample : RawRequest := ⟨some "40.0001", some "-75.0001", some "25", none, none⟩

/-- A well-formed second-page request (offset 20). -/
def reqOffset20 : RawRequest := ⟨some "40", some "-75", some "25", some "", some "20"⟩

/-- A request whose radius parameter is absent (the handler defaults it to
25 and proceeds). -/
def reqMissingRadius : RawRequest := ⟨some "40", some "-75", none, some "", some "0"⟩

/-- A request whose lat parameter is absent (float(None) raises). -/
def reqMissingLat : RawRequest := ⟨none, some "-75", some "25", none, none⟩

/-- The parse of `reqEmptyTax`. -/
def paramsEmptyDemo : Params := ⟨40, -75, 25, "", 0⟩

/-- A second parsed-parameter record with an empty taxonomy but different
numeric values. -/
def paramsEmptyDemo2 : Params := ⟨1, 2, 3, "", 5⟩

/-! Literal renderings of the four generated SQL texts, pinned character for
character so the exact strings the code sends to SQLite are visible.  In the
empty-taxonomy results text, GROUP BY stands between FROM and WHERE, which the
SQL grammar rejects (syntax error near WHERE); both non-empty-taxonomy texts
place a HAVING clause on a SELECT with neither GROUP BY nor an aggregate,
which SQLite rejects as "HAVING clause on a non-aggregate query". -/

set_option maxRecDepth 4096 in
/-- Literal text of the empty-taxonomy count query (the only valid one of the
four). -/
theorem count_query_empty_text :
    count_query "" = "\n    SELECT COUNT(*)\n    FROM (\n        SELECT p.NPI, \n    (3958.8 * acos(\n        cos(radians(:user_lat)) * cos(radians(p.latitude)) *\n        cos(radians(p.longitude) - radians(:user_lon)) +\n        sin(radians(:user_lat)) * sin(radians(p.latitude))\n    ))\n     AS distance\n        FROM providers p\n        \n        WHERE p.latitude IS NOT NULL AND p.latitude != \x27\x27\n        GROUP BY p.NPI\n        HAVING distance < :radius\n    )\n    " := rfl

set_option maxRecDepth 4096 in
/-- Literal text of the non-empty-taxonomy count query: HAVING with neither
GROUP BY nor an aggregate. -/
theorem count_query_taxonomy_text :
    count_query "101Y00000X" = "\n    SELECT COUNT(*)\n    FROM (\n        SELECT p.NPI, \n    (3958.8 * acos(\n        cos(radians(:user_lat)) * cos(radians(p.latitude)) *\n        cos(radians(p.longitude) - radians(:user_lon)) +\n        sin(radians(:user_lat)) * sin(radians(p.latitude))\n    ))\n     AS distance\n        FROM providers p\n        LEFT JOIN json_each(p.taxonomy) AS t_join ON 1=1\n        WHERE p.latitude IS NOT NULL AND p.latitude != \x27\x27 AND t_join.value = :taxonomy\n        \n        HAVING distance < :radius\n    )\n    " := rfl

set_option maxRecDepth 4096 in
/-- Literal text of the empty-taxonomy results query: GROUP BY p.NPI stands
before WHERE. -/
theorem results_query_empty_text :
    results_query "" = "\n    \n    SELECT\n        p.NPI, p.Name, p.Address, p.City, p.State, p.PostalCode,\n        p.latitude, p.longitude, p.taxonomy,\n        \n    (3958.8 * acos(\n        cos(radians(:user_lat)) * cos(radians(p.latitude)) *\n        cos(radians(p.longitude) - radians(:user_lon)) +\n        sin(radians(:user_lat)) * sin(radians(p.latitude))\n    ))\n     AS distance\n    FROM\n        providers p\n     GROUP BY p.NPI\n    \n    WHERE p.latitude IS NOT NULL AND p.latitude != \x27\x27\n    HAVING distance < :radius\n    ORDER BY distance\n    LIMIT :limit\n    OFFSET :offset\n    " := rfl

set_option maxRecDepth 4096 in
/-- Literal text of the non-empty-taxonomy results query: HAVING with neither
GROUP BY nor an aggregate, and no GROUP BY to collapse the json_each join. -/
theorem results_query_taxonomy_text :
    results_query "101Y00000X" = "\n    \n    SELECT\n        p.NPI, p.Name, p.Address, p.City, p.State, p.PostalCode,\n        p.latitude, p.longitude, p.taxonomy,\n        \n    (3958.8 * acos(\n        cos(radians(:user_lat)) * cos(radians(p.latitude)) *\n        cos(radians(p.longitude) - radians(:user_lon)) +\n        sin(radians(:user_lat)) * sin(radians(p.latitude))\n    ))\n     AS distance\n    FROM\n        providers p\n    \n    LEFT JOIN json_each(p.taxonomy) AS t_join ON 1=1\n    WHERE p.latitude IS NOT NULL AND p.latitude != \x27\x27 AND t_join.value = :taxonomy\n    HAVING distance < :radius\n    ORDER BY distance\n    LIMIT :limit\n    OFFSET :offset\n    " := rfl

/-! Shared lemmas. -/

/-- Both variants of the results query are rejected by SQLite at prepare
time, so executing it returns an error for every parameter record and every
dataset. -/
theorem run_results_query_always_errors (p : Params) (db : List ProviderRow) :
    run_results_query p db =
      Except.error (if p.taxonomy = "" then "near \x22WHERE\x22: syntax error"
                    else "HAVING clause on a non-aggregate query") := by
  unfold run_results_query
  by_cases h : p.taxonomy = "" <;> simp [h]

/-! Claim theorems. -/

/-- C1: the claim states that for a valid request with an empty taxonomy
filter the results query succeeds and every located provider within the
radius appears exactly once.  On the code, the empty-taxonomy results query
text places GROUP BY before WHERE and is rejected by SQLite, so the request
is answered with the 500 database-error response and no result rows at all:
here a single located provider at distance 0 inside radius 25 yields the 500
response after the count query succeeded and the results query failed. -/
theorem c1_empty_taxonomy_request_returns_500 :
    search_providers distZero pFloatDemo pIntDemo [rowAlpha] reqEmptyTax =
      (HttpResponse.serverError db_error_message "near \x22WHERE\x22: syntax error",
       ⟨true, true, [(count_query "", query_params paramsEmptyDemo),
                     (results_query "", query_params paramsEmptyDemo)]⟩) := rfl

/-- C2: the claim states that for a non-empty taxonomy code a provider is
returned iff the code is in its category list, without duplication.  On the
code, both generated queries for a non-empty taxonomy carry a HAVING clause
with neither GROUP BY nor an aggregate and are rejected by SQLite, so the
request is answered 500 at the count query: here the dataset holds a located
provider whose category list contains the requested code 101Y00000X (twice),
yet nothing is returned. -/
theorem c2_taxonomy_request_returns_500 :
    search_providers distZero pFloatDemo pIntDemo [rowAlpha] reqWithTax =
      (HttpResponse.serverError db_error_message "HAVING clause on a non-aggregate query",
       ⟨true, true, [(count_query "101Y00000X",
                      query_params ⟨40, -75, 25, "101Y00000X", 0⟩)]⟩) := rfl

/-- C3: the claim states that every response carries a `total` field equal to
the number of matching providers, the same on every page.  On the code no
response ever carries a total: with an empty taxonomy the count query
succeeds but the handler then fails on the results query and answers 500
(discarding the computed count), at offset 0 and offset 20 alike; the 500
body replaces the whole payload. -/
theorem c3_no_response_carries_total :
    (search_providers distZero pFloatDemo pIntDemo [rowAlpha, rowBeta] reqEmptyTax).1 =
      HttpResponse.serverError db_error_message "near \x22WHERE\x22: syntax error"
    ∧ (search_providers distZero pFloatDemo pIntDemo [rowAlpha, rowBeta] reqOffset20).1 =
      HttpResponse.serverError db_error_message "near \x22WHERE\x22: syntax error"
    ∧ run_count_query distZero paramsEmptyDemo [rowAlpha, rowBeta] = Except.ok 2 :=
  ⟨rfl, rfl, rfl⟩

/-- C4: the claim states that a row whose latitude or longitude is null or
empty is excluded before the haversine expression is evaluated.  On the code
the WHERE guard constrains only the latitude, so a row with a numeric
latitude and a NULL longitude passes the filter and the haversine expression
is evaluated on its NULL longitude, where the registered math functions
raise; the empty-taxonomy count query aborts with that error, and the
request is answered 500 instead of the row being excluded. -/
theorem c4_null_longitude_reaches_distance_computation :
    latitudePresent rowNullLon.latitude = true
    ∧ rowNullLon.longitude = SqlVal.null
    ∧ run_count_query distZero paramsEmptyDemo [rowNullLon] =
        Except.error "user-defined function raised exception"
    ∧ (search_providers distZero pFloatDemo pIntDemo [rowNullLon] reqEmptyTax).1 =
        HttpResponse.serverError db_error_message "user-defined function raised exception" :=
  ⟨rfl, rfl, rfl, rfl⟩

/-- C5: the claim states that every record in the returned results list has
distance strictly below the radius.  On the code no record is ever returned:
at the spec's own worked example (a provider at (40, -75), query point
(40.0001, -75.0001), radius 25, distance positive and far below 25) the
response is the 500 database-error body, not a results list. -/
theorem c5_no_result_records_ever_returned :
    (search_providers distManhattan pFloatDemo pIntDemo [rowAlpha] reqSpecExample).1 =
      HttpResponse.serverError db_error_message "near \x22WHERE\x22: syntax error"
    ∧ ∀ res total off lim,
        (search_providers distManhattan pFloatDemo pIntDemo [rowAlpha] reqSpecExample).1 ≠
          HttpResponse.ok res total off lim :=
  ⟨rfl, fun _ _ _ _ h => HttpResponse.noConfusion h⟩

/-- C6: the claim states that the returned results list is sorted by
non-decreasing distance.  On the code no results list is ever produced: with
two located providers at distinct distances inside the radius the response is
the 500 database-error body, so there is no list whose order could be
observed. -/
theorem c6_no_sorted_results_ever_returned :
    (search_providers distManhattan pFloatDemo pIntDemo [rowBeta, rowAlpha] reqSpecExample).1 =
      HttpResponse.serverError db_error_message "near \x22WHERE\x22: syntax error"
    ∧ ∀ res total off lim,
        (search_providers distManhattan pFloatDemo pIntDemo [rowBeta, rowAlpha] reqSpecExample).1 ≠
          HttpResponse.ok res total off lim :=
  ⟨rfl, fun _ _ _ _ h => HttpResponse.noConfusion h⟩

/-- C7 counterexample: the claim states that a request whose radius parameter
is missing is answered 400 with no dataset access.  On the code a missing
radius defaults to 25 and the request proceeds: the handler acquires a
connection, executes both queries, and answers 500 — not a client error, and
with dataset access. -/
theorem c7_counterexample_missing_radius_not_400 :
    search_providers distZero pFloatDemo pIntDemo [rowAlpha] reqMissingRadius =
      (HttpResponse.serverError db_error_message "near \x22WHERE\x22: syntax error",
       ⟨true, true, [(count_query "", query_params paramsEmptyDemo),
                     (results_query "", query_params paramsEmptyDemo)]⟩) := rfl

/-- C7 (amended): if lat or lon is missing or fails to parse, or radius or
offset is present but fails to parse, the handler answers 400 with the fixed
invalid-parameters message and performs no dataset access: no connection is
acquired and no query is executed.  (A missing radius defaults to 25 and a
missing offset to 0, so those cases proceed instead.) -/
theorem c7_parse_failure_returns_400_without_db_access
    (dist : ℚ → ℚ → ℚ → ℚ → ℚ) (pFloat : String → Option ℚ)
    (pInt : String → Option Int) (db : List ProviderRow) (r : RawRequest)
    (h : r.lat.bind pFloat = none ∨ r.lon.bind pFloat = none
       ∨ (∃ s, r.radius = some s ∧ pFloat s = none)
       ∨ (∃ s, r.offset = some s ∧ pInt s = none)) :
    search_providers dist pFloat pInt db r =
      (HttpResponse.clientError invalid_params_message, ⟨false, false, []⟩) := by
  have hp : parse_params pFloat pInt r = none := by
    unfold parse_params
    rcases h with h | h | ⟨s, hs, hps⟩ | ⟨s, hs, hps⟩
    · rw [h]
    · rw [h]
      cases r.lat.bind pFloat <;> rfl
    · have hrad : parse_radius pFloat r = none := by
        unfold parse_radius
        rw [hs]
        exact hps
      rw [hrad]
      cases r.lat.bind pFloat <;> cases r.lon.bind pFloat <;> rfl
    · have hoff : parse_offset pInt r = none := by
        unfold parse_offset
        rw [hs]
        exact hps
      rw [hoff]
      cases r.lat.bind pFloat <;> cases r.lon.bind pFloat <;>
        cases parse_radius pFloat r <;> rfl
  unfold search_providers
  rw [hp]

/-- C7 witness: a request with lat absent is answered 400 with no connection
and no executed query. -/
theorem c7_witness :
    search_providers distZero pFloatDemo pIntDemo [rowAlpha] reqMissingLat =
      (HttpResponse.clientError invalid_params_message, ⟨false, false, []⟩) :=
  c7_parse_failure_returns_400_without_db_access distZero pFloatDemo pIntDemo
    [rowAlpha] reqMissingLat (Or.inl rfl)

/-- C8: on every request, the connection-release flag equals the
connection-acquisition flag (the finally block closes exactly the connection
that was opened), and every request that passes parsing — all of which fail
at the dataset, since at least the results query is always rejected — is
answered with the 500 body consisting of the fixed generic message plus a
details string, with the connection acquired and released. -/
theorem c8_db_failure_returns_500_and_releases_connection
    (dist : ℚ → ℚ → ℚ → ℚ → ℚ) (pFloat : String → Option ℚ)
    (pInt : String → Option Int) (db : List ProviderRow) (r : RawRequest) :
    ((search_providers dist pFloat pInt db r).2.connReleased =
      (search_providers dist pFloat pInt db r).2.connAcquired)
    ∧ ∀ p, parse_params pFloat pInt r = some p →
        ∃ d, (search_providers dist pFloat pInt db r).1 =
              HttpResponse.serverError db_error_message d
          ∧ (search_providers dist pFloat pInt db r).2.connAcquired = true
          ∧ (search_providers dist pFloat pInt db r).2.connReleased = true := by
  unfold search_providers
  cases hp : parse_params pFloat pInt r with
  | none =>
      refine ⟨rfl, fun p hps => ?_⟩
      exact absurd hps (by simp)
  | some p' =>
      dsimp only
      have hr := run_results_query_always_errors p' db
      cases hc : run_count_query dist p' db with
      | error e => exact ⟨rfl, fun p _ => ⟨e, rfl, rfl, rfl⟩⟩
      | ok total =>
          rw [hr]
          exact ⟨rfl, fun p _ => ⟨_, rfl, rfl, rfl⟩⟩

/-- C8 witness: the taxonomy-filter request parses, fails at the dataset, and
is answered 500 with the generic message and a details string, the connection
acquired and released. -/
theorem c8_witness :
    ∃ d, (search_providers distZero pFloatDemo pIntDemo [rowAlpha] reqWithTax).1 =
          HttpResponse.serverError db_error_message d
      ∧ (search_providers distZero pFloatDemo pIntDemo [rowAlpha] reqWithTax).2.connAcquired = true
      ∧ (search_providers distZero pFloatDemo pIntDemo [rowAlpha] reqWithTax).2.connReleased = true :=
  (c8_db_failure_returns_500_and_releases_connection distZero pFloatDemo pIntDemo
    [rowAlpha] reqWithTax).2 ⟨40, -75, 25, "101Y00000X", 0⟩ rfl

/-- C9: the claim states that every valid request is answered with a success
JSON object carrying the page, the total, the echoed offset and the limit 20.
On the code no success object is ever assembled: a valid second-page request
over a dataset with matching providers is answered with the 500 body. -/
theorem c9_no_success_response_ever_assembled :
    (search_providers distManhattan pFloatDemo pIntDemo [rowAlpha, rowBeta] reqOffset20).1 =
      HttpResponse.serverError db_error_message "near \x22WHERE\x22: syntax error"
    ∧ ∀ res total off lim,
        (search_providers distManhattan pFloatDemo pIntDemo [rowAlpha, rowBeta] reqOffset20).1 ≠
          HttpResponse.ok res total off lim :=
  ⟨rfl, fun _ _ _ _ h => HttpResponse.noConfusion h⟩

/-- C10: the generated SQL texts depend only on whether the taxonomy filter
is empty — two parsed parameter records agreeing on that emptiness yield
identical count-query and results-query strings — and every (sql, bindings)
pair the handler passes to execute consists of one of those two texts
together with the bound-parameter record built from the parsed values, so no
user-supplied value is interpolated into the SQL text. -/
theorem c10_sql_text_depends_only_on_taxonomy_emptiness
    (p1 p2 : Params) (dist : ℚ → ℚ → ℚ → ℚ → ℚ) (pFloat : String → Option ℚ)
    (pInt : String → Option Int) (db : List ProviderRow) (r : RawRequest)
    (h : p1.taxonomy = "" ↔ p2.taxonomy = "")
    (hp : parse_params pFloat pInt r = some p1) :
    count_query p1.taxonomy = count_query p2.taxonomy
    ∧ results_query p1.taxonomy = results_query p2.taxonomy
    ∧ ((search_providers dist pFloat pInt db r).2.executed.all
        (fun q => decide (q.1 = count_query p1.taxonomy ∨ q.1 = results_query p1.taxonomy)
          && decide (q.2 = query_params p1))) = true := by
  have htext : count_query p1.taxonomy = count_query p2.taxonomy
      ∧ results_query p1.taxonomy = results_query p2.taxonomy := by
    by_cases h1 : p1.taxonomy = ""
    · rw [h1, h.mp h1]
      exact ⟨rfl, rfl⟩
    · have h2 : ¬p2.taxonomy = "" := fun hh => h1 (h.mpr hh)
      constructor
      · unfold count_query where_clauses
        rw [if_neg h1, if_neg h2, if_neg h1, if_neg h2, if_neg h1, if_neg h2]
      · unfold results_query base_query where_clauses
        rw [if_neg h1, if_neg h2, if_neg h1, if_neg h2, if_neg h1, if_neg h2]
  refine ⟨htext.1, htext.2, ?_⟩
  unfold search_providers
  rw [hp]
  dsimp only
  have hr := run_results_query_always_errors p1 db
  cases hc : run_count_query dist p1 db with
  | error e =>
      simp
  | ok total =>
      rw [hr]
      simp

/-- C10 witness: two empty-taxonomy parameter records with different numeric
values generate identical SQL texts, and the empty-taxonomy sample request
executes only those texts with its bound parameters. -/
theorem c10_witness :
    count_query paramsEmptyDemo.taxonomy = count_query paramsEmptyDemo2.taxonomy
    ∧ results_query paramsEmptyDemo.taxonomy = results_query paramsEmptyDemo2.taxonomy
    ∧ ((search_providers distZero pFloatDemo pIntDemo [rowAlpha] reqEmptyTax).2.executed.all
        (fun q => decide (q.1 = count_query paramsEmptyDemo.taxonomy
                        ∨ q.1 = results_query paramsEmptyDemo.taxonomy)
          && decide (q.2 = query_params paramsEmptyDemo))) = true :=
  c10_sql_text_depends_only_on_taxonomy_emptiness paramsEmptyDemo paramsEmptyDemo2
    distZero pFloatDemo pIntDemo [rowAlpha] reqEmptyTax Iff.rfl rfl

end BackEnd
